import Mathlib

/-!
Shallow embedding of the book-catalog web application in `src/main.py`
(Flask + SQLAlchemy, single `Book` table, four handlers: list, add,
edit-rating, delete), together with theorems settling the specification
claims about it.

Conventions of the embedding:
  * Python `float` values are modelled by `PyFloat`: NaN, signed infinity,
    or a finite value represented as a rational.  The claims under study
    depend only on NaN/infinity propagation through comparisons and on
    exact decimal parsing, both captured faithfully by this type.
  * The database session is modelled by an explicit `DB` value threaded
    through the handlers; a Boolean `commitOk` argument models whether the
    `db.session.commit()` call raises (the `except` branches of the source).
  * An HTTP response is a `Response`: a rendered template with its data
    payload and flashed messages, a redirect carrying flashed messages, or
    the 404 abort produced by `db.get_or_404`.
  * `request.form.get(k)` is an `Option String` field; `request.form.get(k, d)`
    is `(field).getD d`.
-/

/-- Model of a Python `float` value as used by the handlers: NaN, an
infinity with its sign (`true` = negative), or a finite value as a rational.
Finite doubles are rationals, and the range checks of the source compare
only against 0 and 10, so rationals are an exact model for every behavior
the claims mention. -/
inductive PyFloat where
  | nan : PyFloat
  | inf : Bool → PyFloat
  | fin : ℚ → PyFloat
deriving DecidableEq, Repr

/-- Python `<` on floats: every comparison involving NaN is false;
infinities compare in the usual way. -/
def PyFloat.lt : PyFloat → PyFloat → Bool
  | .nan, _ => false
  | _, .nan => false
  | .inf s, .inf t => s && !t
  | .inf s, .fin _ => s
  | .fin _, .inf t => !t
  | .fin a, .fin b => decide (a < b)

/-- Python `<=` on floats: every comparison involving NaN is false. -/
def PyFloat.le : PyFloat → PyFloat → Bool
  | .nan, _ => false
  | _, .nan => false
  | .inf s, .inf t => s || !t
  | .inf s, .fin _ => s
  | .fin _, .inf t => !t
  | .fin a, .fin b => decide (a ≤ b)

/-- The predicate `0 <= r <= 10` of the specification invariant
(`rating` lies within the inclusive range [0, 10]). -/
def ratingInRange (r : PyFloat) : Bool :=
  (PyFloat.fin 0).le r && r.le (PyFloat.fin 10)

/-- The rejection test of the source (`if rating < 0 or rating > 10`),
src/main.py line 84 and line 144. -/
def ratingOutOfRange (r : PyFloat) : Bool :=
  r.lt (PyFloat.fin 0) || (PyFloat.fin 10).lt r

/-- Whether the storage layer can bind this rating for a successful
INSERT or UPDATE: the sqlite3 driver binds a NaN double as NULL, and the
`rating` column is declared NOT NULL (src/main.py line 40), so committing
a NaN rating raises IntegrityError inside `db.session.commit()`; every
other value binds as a REAL. -/
def ratingCommitable : PyFloat → Bool
  | .nan => false
  | _ => true

/-- Value of a list of decimal digit characters. -/
def digitsToNat (cs : List Char) : Nat :=
  cs.foldl (fun a c => a * 10 + (c.toNat - 48)) 0

/-- Characters of a string with surrounding whitespace removed. -/
def stripChars (cs : List Char) : List Char :=
  ((cs.dropWhile Char.isWhitespace).reverse.dropWhile Char.isWhitespace).reverse

/-- Python `str.strip()`: remove surrounding whitespace. -/
def strip (s : String) : String := ⟨stripChars s.data⟩

/-- `(10 : ℚ) ^ n`, the scaling factor for fractional and exponent parts. -/
def pow10 (n : Nat) : ℚ := (10 : ℚ) ^ n

/-- Parse an unsigned decimal literal (digits, optional fraction, optional
exponent) to its exact rational value, as Python `float` accepts it.
The input is already lowercased, so the exponent marker is `e`. -/
def parseDecimal (cs : List Char) : Option ℚ :=
  let ip := cs.takeWhile Char.isDigit
  let r1 := cs.dropWhile Char.isDigit
  let fp := match r1 with
    | c :: r => if c = '.' then r.takeWhile Char.isDigit else []
    | [] => []
  let r2 := match r1 with
    | c :: r => if c = '.' then r.dropWhile Char.isDigit else r1
    | [] => r1
  if ip.isEmpty && fp.isEmpty then none
  else
    let mant : ℚ := (digitsToNat ip : ℚ) + (digitsToNat fp : ℚ) / pow10 fp.length
    match r2 with
    | [] => some mant
    | c :: r3 =>
      if c = 'e' then
        match r3 with
        | [] => none
        | d :: r4 =>
          if d = '+' then
            if !r4.isEmpty && r4.all Char.isDigit then some (mant * pow10 (digitsToNat r4)) else none
          else if d = '-' then
            if !r4.isEmpty && r4.all Char.isDigit then some (mant / pow10 (digitsToNat r4)) else none
          else
            if r3.all Char.isDigit then some (mant * pow10 (digitsToNat r3)) else none
      else none

/-- Python builtin `float(s)` (src/main.py line 83 and line 143): strip
whitespace, optional sign, then case-insensitive `nan`, `inf`/`infinity`,
or a decimal literal; returns `none` where Python raises `ValueError`. -/
def float (s : String) : Option PyFloat :=
  let cs := (stripChars s.data).map Char.toLower
  let neg := match cs with
    | '-' :: _ => true
    | _ => false
  let body := match cs with
    | '+' :: r => r
    | '-' :: r => r
    | _ => cs
  if body = ['n', 'a', 'n'] then some .nan
  else if body = ['i', 'n', 'f'] || body = ['i', 'n', 'f', 'i', 'n', 'i', 't', 'y'] then
    some (.inf neg)
  else
    match parseDecimal body with
    | some q => some (.fin (if neg then -q else q))
    | none => none

/-- The `Book` model, src/main.py lines 33-40: integer primary key,
title, author, floating-point rating. -/
structure Book where
  id : Nat
  title : String
  author : String
  rating : PyFloat
deriving DecidableEq, Repr

/-- The persistent store: the rows of the `book` table plus the next
primary key the storage layer will assign (SQLite assigns fresh,
increasing rowids). -/
structure DB where
  books : List Book
  nextId : Nat
deriving DecidableEq, Repr

/-- The freshly created database (src/main.py line 48): no rows. -/
def initialDB : DB := ⟨[], 1⟩

/-- Form body of `POST /add`: the three text fields, absent when the
client did not send them (then `request.form.get(k, "")` yields `""`). -/
structure AddForm where
  title : Option String
  author : Option String
  rating : Option String
deriving DecidableEq, Repr

/-- Form body of `POST /edit`: hidden `id` field and the `rating` field. -/
structure EditForm where
  id : Option String
  rating : Option String
deriving DecidableEq, Repr

/-- Form body of `POST /delete`: the `id` field. -/
structure DeleteForm where
  id : Option String
deriving DecidableEq, Repr

/-- A handler response: a rendered template together with the Book rows
passed to it and the flashed `(message, category)` pairs, a redirect
(with flashed messages), or the 404 abort raised by `db.get_or_404`. -/
inductive Response where
  | render : String → List Book → List (String × String) → Response
  | redirect : String → List (String × String) → Response
  | notFound : Response
deriving DecidableEq, Repr

/-- Whether a response is a redirect to the given target. -/
def Response.isRedirectTo : Response → String → Bool
  | .redirect u _, t => u = t
  | _, _ => false

/-- Python falsiness of an optional form string: `not x` holds for a
missing field (`None`) and for the empty string. -/
def strFalsy : Option String → Bool
  | none => true
  | some s => s = ""

/-- `db.get_or_404(Book, book_id)` lookup part (src/main.py lines 133,
170, 186): the text id resolves through SQLite numeric affinity to the
row with that integer primary key; non-numeric or unmatched ids resolve
to nothing (a 404). -/
def getBook (db : DB) (idStr : String) : Option Book :=
  if !idStr.data.isEmpty && idStr.data.all Char.isDigit then
    db.books.find? (fun b => b.id = digitsToNat idStr.data)
  else
    none

/-- SQLite BINARY collation on titles (`ORDER BY Book.title`): bytewise,
which on UTF-8 agrees with code-point lexicographic order. -/
def charListLe : List Char → List Char → Bool
  | [], _ => true
  | _ :: _, [] => false
  | a :: as, b :: bs =>
    decide (a.toNat < b.toNat) || (decide (a.toNat = b.toNat) && charListLe as bs)

/-- Title order used by the list view. -/
def titleLe (a b : Book) : Bool := charListLe a.title.data b.title.data

/-- The `home` handler, src/main.py lines 54-62: select all rows ordered
by title and render `index.html` with them; the database is untouched. -/
def home (db : DB) : Response × DB :=
  (.render "index.html" (db.books.mergeSort titleLe) [], db)

/-- The `add` handler on POST, src/main.py lines 70-114.  `commitOk`
models the absence of an unexpected storage failure in the `try` at line
98; the commit additionally fails of necessity when the rating cannot be
bound (NaN becomes NULL against the NOT NULL column), so the INSERT is
persisted exactly when `commitOk && ratingCommitable rating`; otherwise
the `except` branch rolls the session back and re-renders the form. -/
def add_post (db : DB) (form : AddForm) (commitOk : Bool) : Response × DB :=
  let title := strip ((form.title).getD "")
  let author := strip ((form.author).getD "")
  let rating_str := strip ((form.rating).getD "")
  if title = "" || author = "" || rating_str = "" then
    (.render "add.html" [] [("All fields are required.", "error")], db)
  else
    match float rating_str with
    | none => (.render "add.html" [] [("Rating must be a valid number.", "error")], db)
    | some rating =>
      if ratingOutOfRange rating then
        (.render "add.html" [] [("Rating must be between 0 and 10.", "error")], db)
      else if db.books.any (fun b => b.title = title) then
        (.render "add.html" [] [("A book with this title already exists.", "error")], db)
      else if commitOk && ratingCommitable rating then
        (.redirect "/" [("Book added successfully!", "success")],
          ⟨db.books ++ [⟨db.nextId, title, author, rating⟩], db.nextId + 1⟩)
      else
        (.render "add.html" [] [("An error occurred while adding the book.", "error")], db)

/-- The `add` handler on GET, src/main.py line 117: show the empty form. -/
def add_get (db : DB) : Response × DB :=
  (.render "add.html" [] [], db)

/-- The `edit` handler on POST, src/main.py lines 124-161.  `commitOk`
models the absence of an unexpected storage failure in the `try` at line
152; the commit additionally fails of necessity when the new rating
cannot be bound (NaN becomes NULL against the NOT NULL column), so the
UPDATE is persisted exactly when `commitOk && ratingCommitable rating`;
on failure the session is rolled back, so the store is unchanged, and
either way the handler redirects home. -/
def edit_post (db : DB) (form : EditForm) (commitOk : Bool) : Response × DB :=
  if strFalsy form.id then
    (.redirect "/" [("Invalid book ID.", "error")], db)
  else
    match getBook db ((form.id).getD "") with
    | none => (.notFound, db)
    | some book =>
      let rating_str := strip ((form.rating).getD "")
      if rating_str = "" then
        (.render "edit_rating.html" [book] [("Rating is required.", "error")], db)
      else
        match float rating_str with
        | none =>
          (.render "edit_rating.html" [book] [("Rating must be a valid number.", "error")], db)
        | some rating =>
          if ratingOutOfRange rating then
            (.render "edit_rating.html" [book] [("Rating must be between 0 and 10.", "error")], db)
          else if commitOk && ratingCommitable rating then
            (.redirect "/" [("Rating updated successfully!", "success")],
              ⟨db.books.map (fun b => if b.id = book.id then { b with rating := rating } else b),
                db.nextId⟩)
          else
            (.redirect "/" [("An error occurred while updating the rating.", "error")], db)

/-- The `edit` handler on GET, src/main.py lines 165-172: show the
edit-rating form for the requested record. -/
def edit_get (db : DB) (idArg : Option String) : Response × DB :=
  if strFalsy idArg then
    (.redirect "/" [("Invalid book ID.", "error")], db)
  else
    match getBook db (idArg.getD "") with
    | none => (.notFound, db)
    | some book => (.render "edit_rating.html" [book] [], db)

/-- A single-quote character, written by code point to embed the Python
f-string quoting of the deleted title. -/
def quoteStr : String := String.singleton (Char.ofNat 39)

/-- The success flash of the delete handler, src/main.py line 193: the
f-string interpolating the deleted title between single quotes. -/
def deleteSuccessMsg (t : String) : String :=
  quoteStr ++ t ++ quoteStr ++ " has been deleted successfully!"

/-- The `delete` handler (POST), src/main.py lines 177-199.  `commitOk`
models whether `db.session.commit()` at line 192 succeeds; on failure the
deletion is rolled back. -/
def delete_post (db : DB) (form : DeleteForm) (commitOk : Bool) : Response × DB :=
  if strFalsy form.id then
    (.redirect "/" [("Invalid book ID.", "error")], db)
  else
    match getBook db ((form.id).getD "") with
    | none => (.notFound, db)
    | some book =>
      if commitOk then
        (.redirect "/" [(deleteSuccessMsg book.title, "success")],
          ⟨db.books.filter (fun b => b.id != book.id), db.nextId⟩)
      else
        (.redirect "/" [("An error occurred while deleting the book.", "error")], db)

/-- Database states reachable from the fresh database through any
sequence of handler invocations (the read-only handlers leave the store
untouched, so the mutating POST handlers generate all reachable states). -/
inductive Reachable : DB → Prop where
  | init : Reachable initialDB
  | addStep (db form c) : Reachable db → Reachable (add_post db form c).2
  | editStep (db form c) : Reachable db → Reachable (edit_post db form c).2
  | delStep (db form c) : Reachable db → Reachable (delete_post db form c).2

/-- Check 1 of the add validation sequence: some field empty after
trimming (src/main.py line 77). -/
def addFieldsMissing (form : AddForm) : Bool :=
  strip ((form.title).getD "") = "" || strip ((form.author).getD "") = "" ||
    strip ((form.rating).getD "") = ""

/-- Check 2 of the add validation sequence: the trimmed rating text does
not parse as a number (src/main.py line 83). -/
def addRatingUnparsable (form : AddForm) : Bool :=
  (float (strip ((form.rating).getD ""))).isNone

/-- Check 4 of the add validation sequence: a stored record already has
exactly the trimmed title (src/main.py line 92). -/
def addDuplicateTitle (db : DB) (form : AddForm) : Bool :=
  db.books.any (fun b => b.title = strip ((form.title).getD ""))

/-- The edit handler rejects the submitted rating text: empty after
trimming, unparsable, or out of range (src/main.py lines 137-150). -/
def editRatingInvalid (form : EditForm) : Bool :=
  let rs := strip ((form.rating).getD "")
  rs = "" ||
    match float rs with
    | none => true
    | some r => ratingOutOfRange r

/-! ## Helper lemmas -/

theorem charListLe_trans :
    ∀ a b c, charListLe a b = true → charListLe b c = true → charListLe a c = true := by
  intro a
  induction a with
  | nil => intro b c _ _; rfl
  | cons x xs ih =>
    intro b c hab hbc
    cases b with
    | nil => simp [charListLe] at hab
    | cons y ys =>
      cases c with
      | nil => simp [charListLe] at hbc
      | cons z zs =>
        simp only [charListLe, Bool.or_eq_true, Bool.and_eq_true, decide_eq_true_eq]
          at hab hbc ⊢
        rcases hab with h1 | ⟨h1, h2⟩ <;> rcases hbc with h3 | ⟨h3, h4⟩
        · left; omega
        · left; omega
        · left; omega
        · right; exact ⟨by omega, ih ys zs h2 h4⟩

theorem charListLe_total : ∀ a b, (charListLe a b || charListLe b a) = true := by
  intro a
  induction a with
  | nil => intro b; simp [charListLe]
  | cons x xs ih =>
    intro b
    cases b with
    | nil => simp [charListLe]
    | cons y ys =>
      simp only [charListLe, Bool.or_eq_true, Bool.and_eq_true, decide_eq_true_eq]
      rcases Nat.lt_trichotomy x.toNat y.toNat with h | h | h
      · exact Or.inl (Or.inl h)
      · have := ih ys
        simp only [Bool.or_eq_true] at this
        rcases this with h2 | h2
        · exact Or.inl (Or.inr ⟨h, h2⟩)
        · exact Or.inr (Or.inr ⟨h.symm, h2⟩)
      · exact Or.inr (Or.inl h)

theorem titleLe_trans (a b c : Book) (hab : titleLe a b = true) (hbc : titleLe b c = true) :
    titleLe a c = true :=
  charListLe_trans _ _ _ hab hbc

theorem titleLe_total (a b : Book) : (titleLe a b || titleLe b a) = true :=
  charListLe_total _ _

theorem float_empty : float "" = none := rfl

theorem getBook_empty (db : DB) : getBook db "" = none := rfl

theorem strFalsy_some_ne (s : String) (hs : s ≠ "") : strFalsy (some s) = false := by
  simp [strFalsy, hs]

/-- Any invocation of the add handler either leaves the store untouched or,
when every check passes and the commit succeeds, appends exactly one fresh
record carrying the trimmed title and author and a rating that passed the
range check and that the storage layer could bind. -/
theorem add_post_state (db : DB) (form : AddForm) (c : Bool) :
    (add_post db form c).2 = db ∨
    (addDuplicateTitle db form = false ∧ ∃ r,
      ratingOutOfRange r = false ∧ ratingCommitable r = true ∧
      (add_post db form c).2
        = ⟨db.books ++ [⟨db.nextId, strip ((form.title).getD ""),
            strip ((form.author).getD ""), r⟩], db.nextId + 1⟩) := by
  simp only [add_post]
  split
  · left; rfl
  · split
    · left; rfl
    · next r _ =>
      split
      · left; rfl
      · next hoor =>
        split
        · left; rfl
        · next hdup2 =>
          split
          · next hcommit =>
            right
            refine ⟨?_, r, ?_, ?_, rfl⟩
            · unfold addDuplicateTitle
              simp only [Bool.not_eq_true] at hdup2
              exact hdup2
            · simp only [Bool.not_eq_true] at hoor
              exact hoor
            · exact ((Bool.and_eq_true _ _).mp hcommit).2
          · left; rfl

/-- Any invocation of the edit handler either leaves the store untouched
or rewrites the rating field of the records with one fixed id — to a value
that passed the range check and that the storage layer could bind —
keeping the list structure, the other fields, and the id counter. -/
theorem edit_post_state (db : DB) (form : EditForm) (c : Bool) :
    (edit_post db form c).2 = db ∨
    ∃ n r, ratingOutOfRange r = false ∧ ratingCommitable r = true ∧
      (edit_post db form c).2
        = ⟨db.books.map (fun b => if b.id = n then { b with rating := r } else b),
            db.nextId⟩ := by
  simp only [edit_post]
  split
  · left; rfl
  · split
    · left; rfl
    · next book _ =>
      split
      · left; rfl
      · split
        · left; rfl
        · next r _ =>
          split
          · left; rfl
          · next hoor =>
            split
            · next hcommit =>
              right
              refine ⟨book.id, r, ?_, ?_, rfl⟩
              · simp only [Bool.not_eq_true] at hoor
                exact hoor
              · exact ((Bool.and_eq_true _ _).mp hcommit).2
            · left; rfl

/-- Any invocation of the delete handler either leaves the store untouched
or removes exactly the records with one fixed id. -/
theorem delete_post_state (db : DB) (form : DeleteForm) (c : Bool) :
    (delete_post db form c).2 = db ∨
    ∃ n, (delete_post db form c).2 = ⟨db.books.filter (fun b => b.id != n), db.nextId⟩ := by
  simp only [delete_post]
  split
  · left; rfl
  · split
    · left; rfl
    · next book _ =>
      split
      · right; exact ⟨book.id, rfl⟩
      · left; rfl

/-! ## Claim theorems -/

/-- C8: the list operation returns all stored Book records ordered by
title ascending whatever the insertion order, performs no writes (the
store it returns is the store it was given), and an empty payload is a
valid success. -/
theorem home_returns_all_books_sorted_without_writes (db : DB) :
    (home db).2 = db ∧
    ∃ l, (home db).1 = Response.render "index.html" l [] ∧
      l.Perm db.books ∧ l.Pairwise (fun a b => titleLe a b = true) :=
  ⟨rfl, db.books.mergeSort titleLe, rfl, List.mergeSort_perm _ _,
    List.sorted_mergeSort titleLe_trans titleLe_total db.books⟩

/-- A rating that passes the range check of the handlers and that the
storage layer can bind lies within the inclusive range [0, 10]: the
infinities fail the range check, NaN fails the bind, and a finite value
neither below 0 nor above 10 is in the range. -/
theorem ratingInRange_of_accepted (r : PyFloat)
    (h1 : ratingOutOfRange r = false) (h2 : ratingCommitable r = true) :
    ratingInRange r = true := by
  cases r with
  | nan => simp [ratingCommitable] at h2
  | inf s => cases s <;> simp [ratingOutOfRange, PyFloat.lt] at h1
  | fin q =>
    simp only [ratingOutOfRange, PyFloat.lt, Bool.or_eq_false_iff,
      decide_eq_false_iff_not, not_lt] at h1
    simp only [ratingInRange, PyFloat.le, Bool.and_eq_true, decide_eq_true_eq]
    exact h1

/-- C1: at every storage state reachable through the handlers, every
persisted record has a rating within the inclusive range [0, 10]: the add
and edit handlers only commit a rating that passed the range check and
that the storage layer could bind — and NaN, the one value that passes
the range check while lying outside [0, 10], is bound as NULL against the
NOT NULL column, so its commit raises, rolls back, and persists
nothing. -/
theorem rating_range_invariant (db : DB) (h : Reachable db) :
    db.books.all (fun b => ratingInRange b.rating) = true := by
  rw [List.all_eq_true]
  induction h with
  | init => intro b hb; cases hb
  | addStep db' form c hr ih =>
    rcases add_post_state db' form c with h' | ⟨_, r, hr1, hr2, h'⟩
    · rw [h']; exact ih
    · rw [h']
      intro b hb
      rw [List.mem_append] at hb
      rcases hb with hb | hb
      · exact ih b hb
      · rw [List.mem_singleton] at hb
        subst hb
        exact ratingInRange_of_accepted r hr1 hr2
  | editStep db' form c hr ih =>
    rcases edit_post_state db' form c with h' | ⟨n, r, hr1, hr2, h'⟩
    · rw [h']; exact ih
    · rw [h']
      intro b hb
      rw [List.mem_map] at hb
      rcases hb with ⟨a, ha, rfl⟩
      by_cases han : a.id = n
      · simpa [han] using ratingInRange_of_accepted r hr1 hr2
      · simpa [han] using ih a ha
  | delStep db' form c hr ih =>
    rcases delete_post_state db' form c with h' | ⟨n, h'⟩
    · rw [h']; exact ih
    · rw [h']
      intro b hb
      exact ih b (List.mem_of_mem_filter hb)

theorem rating_range_invariant_witness :
    ((add_post initialDB ⟨some "Dune", some "Frank Herbert", some "9.5"⟩ true).2).books.all
      (fun b => ratingInRange b.rating) = true :=
  rating_range_invariant
    ((add_post initialDB ⟨some "Dune", some "Frank Herbert", some "9.5"⟩ true).2)
    (Reachable.addStep initialDB ⟨some "Dune", some "Frank Herbert", some "9.5"⟩ true
      Reachable.init)

/-- C10 (counterexample): submitting the rating text `nan` (non-empty
title and author, no duplicate) does not persist a record whose rating is
NaN: even with no unexpected storage failure, both the add and the edit
store are unchanged afterwards, refuting the claimed persistence. -/
theorem nan_persistence_refuted :
    (add_post initialDB ⟨some "A", some "B", some "nan"⟩ true).2 = initialDB ∧
    (edit_post ⟨[⟨1, "T", "A", PyFloat.fin 5⟩], 2⟩ ⟨some "1", some "nan"⟩ true).2
      = ⟨[⟨1, "T", "A", PyFloat.fin 5⟩], 2⟩ := by decide

/-- C10 (amended): for the rating text `nan` the parse step succeeds and
the range check does not reject the value, because the comparisons
`NaN < 0` and `NaN > 10` are both false, so the add handler reaches its
commit — but the commit necessarily fails (the driver binds NaN as NULL
against the NOT NULL rating column), the session rolls back, the generic
storage-error path runs, and no record is persisted; the edit handler's
range check behaves the same way and its commit likewise fails, leaving
the store unchanged. -/
theorem nan_passes_validation_but_commit_fails :
    float "nan" = some PyFloat.nan ∧
    PyFloat.lt PyFloat.nan (PyFloat.fin 0) = false ∧
    PyFloat.lt (PyFloat.fin 10) PyFloat.nan = false ∧
    ratingOutOfRange PyFloat.nan = false ∧
    ratingCommitable PyFloat.nan = false ∧
    add_post initialDB ⟨some "T2", some "A2", some "nan"⟩ true
      = (.render "add.html" [] [("An error occurred while adding the book.", "error")],
         initialDB) ∧
    edit_post ⟨[⟨1, "U", "V", PyFloat.fin 5⟩], 2⟩ ⟨some "1", some "nan"⟩ true
      = (.redirect "/" [("An error occurred while updating the rating.", "error")],
         ⟨[⟨1, "U", "V", PyFloat.fin 5⟩], 2⟩) := by decide

/-- C3: an edit or delete request whose identifier is present (non-empty)
but resolves to no stored record terminates with the 404 not-found
response and leaves the store untouched; it neither redirects to the list
view nor re-renders a form. -/
theorem unresolved_id_terminates_not_found (db : DB) (s : String) (rat : Option String)
    (c : Bool) (hs : s ≠ "") (h : getBook db s = none) :
    edit_post db ⟨some s, rat⟩ c = (.notFound, db) ∧
    delete_post db ⟨some s⟩ c = (.notFound, db) ∧
    edit_get db (some s) = (.notFound, db) := by
  have hf : strFalsy (some s) = false := strFalsy_some_ne s hs
  refine ⟨?_, ?_, ?_⟩ <;> simp [edit_post, delete_post, edit_get, hf, h]

theorem unresolved_id_terminates_not_found_witness :
    edit_post initialDB ⟨some "1", none⟩ true = (.notFound, initialDB) ∧
    delete_post initialDB ⟨some "1"⟩ true = (.notFound, initialDB) ∧
    edit_get initialDB (some "1") = (.notFound, initialDB) :=
  unresolved_id_terminates_not_found initialDB "1" none true (by decide) (by decide)

/-- C4 (counterexample): a delete request whose identifier does not
resolve to a stored record does not redirect to the list view; it
terminates with the 404 not-found response, refuting the claim that every
delete request finishes by redirecting to the list view. -/
theorem delete_always_redirects_refuted :
    delete_post initialDB ⟨some "1"⟩ true = (.notFound, initialDB) ∧
    (delete_post initialDB ⟨some "1"⟩ true).1.isRedirectTo "/" = false := by decide

/-- C4 (amended): every delete request redirects to the list view, except
when the identifier is present (non-falsy) but resolves to no stored
record, in which case — and only in which case — the request terminates
with the 404 not-found response. -/
theorem delete_redirects_except_not_found (db : DB) (form : DeleteForm) (c : Bool) :
    ((delete_post db form c).1.isRedirectTo "/" = true ∨
      (delete_post db form c).1 = .notFound) ∧
    ((delete_post db form c).1 = .notFound ↔
      strFalsy form.id = false ∧ getBook db ((form.id).getD "") = none) := by
  unfold delete_post
  cases hf : strFalsy form.id
  · cases hg : getBook db ((form.id).getD "")
    · simp [hf, hg, Response.isRedirectTo]
    · cases c <;> simp [hf, hg, Response.isRedirectTo]
  · simp [hf, Response.isRedirectTo]

theorem delete_redirects_except_not_found_witness :
    (delete_post initialDB ⟨none⟩ true).1.isRedirectTo "/" = true ∨
      (delete_post initialDB ⟨none⟩ true).1 = .notFound :=
  (delete_redirects_except_not_found initialDB ⟨none⟩ true).1

/-- C5: a successful delete of an existing record (the id resolves and the
commit succeeds) flashes a success message that names the deleted record
by embedding its title in the message text. -/
theorem delete_success_message_names_title (db : DB) (s : String) (book : Book)
    (hs : s ≠ "") (h : getBook db s = some book) :
    (delete_post db ⟨some s⟩ true).1
      = .redirect "/" [(deleteSuccessMsg book.title, "success")] ∧
    ∃ u v, deleteSuccessMsg book.title = u ++ book.title ++ v := by
  have hf : strFalsy (some s) = false := strFalsy_some_ne s hs
  refine ⟨by simp [delete_post, hf, h],
    quoteStr, quoteStr ++ " has been deleted successfully!", ?_⟩
  simp [deleteSuccessMsg, String.append_assoc]

theorem delete_success_message_names_title_witness :
    (delete_post ⟨[⟨1, "Dune", "Frank Herbert", PyFloat.fin 5⟩], 2⟩ ⟨some "1"⟩ true).1
      = .redirect "/" [(deleteSuccessMsg "Dune", "success")] :=
  (delete_success_message_names_title ⟨[⟨1, "Dune", "Frank Herbert", PyFloat.fin 5⟩], 2⟩ "1"
    ⟨1, "Dune", "Frank Herbert", PyFloat.fin 5⟩ (by decide) (by decide)).1

/-- C2: for every POST to the add handler the four checks run in the
fixed order fields-nonempty, rating-parses, rating-in-range,
no-duplicate-title; the first check to fail fixes the outcome, each
failure flashes its own distinct message and re-renders the add form, and
the store is unchanged (nothing is persisted) on every failure. -/
theorem add_validation_sequence (db : DB) (form : AddForm) (c : Bool) :
    (addFieldsMissing form = true →
      add_post db form c
        = (.render "add.html" [] [("All fields are required.", "error")], db)) ∧
    (addFieldsMissing form = false → addRatingUnparsable form = true →
      add_post db form c
        = (.render "add.html" [] [("Rating must be a valid number.", "error")], db)) ∧
    (∀ r, addFieldsMissing form = false →
      float (strip ((form.rating).getD "")) = some r → ratingOutOfRange r = true →
      add_post db form c
        = (.render "add.html" [] [("Rating must be between 0 and 10.", "error")], db)) ∧
    (∀ r, addFieldsMissing form = false →
      float (strip ((form.rating).getD "")) = some r → ratingOutOfRange r = false →
      addDuplicateTitle db form = true →
      add_post db form c
        = (.render "add.html" [] [("A book with this title already exists.", "error")], db)) ∧
    (("All fields are required." : String) ≠ "Rating must be a valid number." ∧
      ("All fields are required." : String) ≠ "Rating must be between 0 and 10." ∧
      ("All fields are required." : String) ≠ "A book with this title already exists." ∧
      ("Rating must be a valid number." : String) ≠ "Rating must be between 0 and 10." ∧
      ("Rating must be a valid number." : String) ≠ "A book with this title already exists." ∧
      ("Rating must be between 0 and 10." : String) ≠ "A book with this title already exists.") := by
  refine ⟨?_, ?_, ?_, ?_, by decide⟩
  · intro h
    unfold addFieldsMissing at h
    simp [add_post, h]
  · intro h1 h2
    unfold addFieldsMissing at h1
    unfold addRatingUnparsable at h2
    rw [Option.isNone_iff_eq_none] at h2
    simp [add_post, h1, h2]
  · intro r h1 h2 h3
    unfold addFieldsMissing at h1
    simp [add_post, h1, h2, h3]
  · intro r h1 h2 h3 h4
    unfold addFieldsMissing at h1
    unfold addDuplicateTitle at h4
    simp [add_post, h1, h2, h3, h4]

theorem add_validation_sequence_witness :
    add_post initialDB ⟨some " ", some "B", some "5"⟩ true
      = (.render "add.html" [] [("All fields are required.", "error")], initialDB) :=
  (add_validation_sequence initialDB ⟨some " ", some "B", some "5"⟩ true).1 (by decide)

/-- C6 (counterexample): a POST to the edit handler with a resolving id
and the unparsable rating text `abc` re-renders the edit form instead of
redirecting to the list view, refuting the claim that every outcome other
than the missing-identifier error ends in a redirect to the list view. -/
theorem edit_redirects_in_all_outcomes_refuted :
    (edit_post ⟨[⟨1, "T", "A", PyFloat.fin 5⟩], 2⟩ ⟨some "1", some "abc"⟩ true).1
      = .render "edit_rating.html" [⟨1, "T", "A", PyFloat.fin 5⟩]
          [("Rating must be a valid number.", "error")] ∧
    (edit_post ⟨[⟨1, "T", "A", PyFloat.fin 5⟩], 2⟩
        ⟨some "1", some "abc"⟩ true).1.isRedirectTo "/" = false := by decide

/-- C6 (amended): a POST to the edit handler redirects to the list view
in every outcome except two: an identifier that is present but resolves
to no record terminates with the 404 not-found response, and a rating
validation failure (empty, unparsable, or out-of-range rating text)
re-renders the edit form; in particular the missing-identifier error also
redirects to the list view. -/
theorem edit_post_outcome_characterization (db : DB) (form : EditForm) (c : Bool) :
    (strFalsy form.id = true → (edit_post db form c).1.isRedirectTo "/" = true) ∧
    (strFalsy form.id = false → getBook db ((form.id).getD "") = none →
      (edit_post db form c).1 = .notFound) ∧
    (∀ book, strFalsy form.id = false → getBook db ((form.id).getD "") = some book →
      editRatingInvalid form = true →
      ∃ msg, (edit_post db form c).1 = .render "edit_rating.html" [book] [(msg, "error")]) ∧
    (∀ book, strFalsy form.id = false → getBook db ((form.id).getD "") = some book →
      editRatingInvalid form = false →
      (edit_post db form c).1.isRedirectTo "/" = true) := by
  refine ⟨?_, ?_, ?_, ?_⟩
  · intro h
    simp [edit_post, h, Response.isRedirectTo]
  · intro h1 h2
    simp [edit_post, h1, h2]
  · intro book h1 h2 h3
    by_cases he : strip ((form.rating).getD "") = ""
    · exact ⟨"Rating is required.", by simp [edit_post, h1, h2, he]⟩
    · cases hfl : float (strip ((form.rating).getD "")) with
      | none =>
        exact ⟨"Rating must be a valid number.", by simp [edit_post, h1, h2, he, hfl]⟩
      | some r =>
        have hoor : ratingOutOfRange r = true := by
          unfold editRatingInvalid at h3
          simpa [he, hfl] using h3
        exact ⟨"Rating must be between 0 and 10.",
          by simp [edit_post, h1, h2, he, hfl, hoor]⟩
  · intro book h1 h2 h3
    by_cases he : strip ((form.rating).getD "") = ""
    · exfalso
      unfold editRatingInvalid at h3
      simp [he] at h3
    · cases hfl : float (strip ((form.rating).getD "")) with
      | none =>
        exfalso
        unfold editRatingInvalid at h3
        simp [he, hfl] at h3
      | some r =>
        have hoor : ratingOutOfRange r = false := by
          unfold editRatingInvalid at h3
          simpa [he, hfl] using h3
        cases hrc : ratingCommitable r <;> cases c <;>
          simp [edit_post, h1, h2, he, hfl, hoor, hrc, Response.isRedirectTo]

theorem edit_post_outcome_characterization_witness :
    (edit_post initialDB ⟨none, some "5"⟩ true).1.isRedirectTo "/" = true :=
  (edit_post_outcome_characterization initialDB ⟨none, some "5"⟩ true).1 (by decide)

/-- C7: a successful edit overwrites only the rating field of the
identified record: the stored list maps each record with the target id to
the same record with the new rating, so the ids, titles, authors, every
record with a different id, and the id counter are all unchanged. -/
theorem edit_success_rating_only_frame (db : DB) (s rs : String) (book : Book) (r : PyFloat)
    (h1 : getBook db s = some book)
    (h2 : float (strip rs) = some r)
    (h3 : ratingOutOfRange r = false)
    (h4 : ratingCommitable r = true) :
    (edit_post db ⟨some s, some rs⟩ true).2.books
        = db.books.map (fun b => if b.id = book.id then { b with rating := r } else b) ∧
    (edit_post db ⟨some s, some rs⟩ true).2.books.map Book.id = db.books.map Book.id ∧
    (edit_post db ⟨some s, some rs⟩ true).2.books.map Book.title = db.books.map Book.title ∧
    (edit_post db ⟨some s, some rs⟩ true).2.books.map Book.author = db.books.map Book.author ∧
    (∀ b ∈ db.books, b.id ≠ book.id → b ∈ (edit_post db ⟨some s, some rs⟩ true).2.books) ∧
    (edit_post db ⟨some s, some rs⟩ true).2.nextId = db.nextId := by
  have hs : s ≠ "" := by
    rintro rfl
    rw [getBook_empty] at h1
    exact Option.noConfusion h1
  have hf : strFalsy (some s) = false := strFalsy_some_ne s hs
  have he : ¬(strip rs = "") := by
    intro h
    rw [h, float_empty] at h2
    exact Option.noConfusion h2
  have hmain : (edit_post db ⟨some s, some rs⟩ true).2
      = ⟨db.books.map (fun b => if b.id = book.id then { b with rating := r } else b),
          db.nextId⟩ := by
    simp [edit_post, hf, h1, he, h2, h3, h4]
  rw [hmain]
  refine ⟨rfl, ?_, ?_, ?_, ?_, rfl⟩
  · rw [List.map_map]
    apply List.map_congr_left
    intro b _
    by_cases hb : b.id = book.id <;> simp [hb]
  · rw [List.map_map]
    apply List.map_congr_left
    intro b _
    by_cases hb : b.id = book.id <;> simp [hb]
  · rw [List.map_map]
    apply List.map_congr_left
    intro b _
    by_cases hb : b.id = book.id <;> simp [hb]
  · intro b hb hne
    exact List.mem_map.mpr ⟨b, hb, by simp [hne]⟩

theorem edit_success_rating_only_frame_witness :
    (edit_post ⟨[⟨1, "T", "A", PyFloat.fin 5⟩, ⟨2, "U", "B", PyFloat.fin 3⟩], 3⟩
        ⟨some "1", some "7"⟩ true).2.books.map Book.title = ["T", "U"] :=
  (edit_success_rating_only_frame
    ⟨[⟨1, "T", "A", PyFloat.fin 5⟩, ⟨2, "U", "B", PyFloat.fin 3⟩], 3⟩
    "1" "7" ⟨1, "T", "A", PyFloat.fin 5⟩ (PyFloat.fin 7)
    (by decide)
    (by
      have h1 : float (strip "7")
          = some (PyFloat.fin ((digitsToNat ['7'] : ℚ)
              + (digitsToNat ([] : List Char) : ℚ) / pow10 0)) := rfl
      have h7 : digitsToNat ['7'] = 7 := by decide
      have h0 : digitsToNat ([] : List Char) = 0 := by decide
      rw [h1, h7, h0]
      simp [pow10])
    (by decide) (by decide)).2.2.1

/-- C9: at every storage state reachable through the handlers the stored
titles are pairwise distinct (at most one record per exact title), and
whenever some stored record already carries the submitted trimmed title
the add handler leaves the store — hence the record count — unchanged. -/
theorem title_uniqueness_invariant (db : DB) (h : Reachable db) :
    db.books.Pairwise (fun a b => a.title ≠ b.title) ∧
    ∀ form c, addDuplicateTitle db form = true → (add_post db form c).2 = db := by
  have hmain : ∀ d, Reachable d → d.books.Pairwise (fun a b => a.title ≠ b.title) := by
    intro d hd
    induction hd with
    | init => exact List.Pairwise.nil
    | addStep db' form c hr ih =>
      rcases add_post_state db' form c with h' | ⟨hdup, r, _, _, h'⟩
      · rw [h']; exact ih
      · rw [h']
        rw [List.pairwise_append]
        refine ⟨ih, List.pairwise_singleton _ _, ?_⟩
        intro a ha b hb
        rw [List.mem_singleton] at hb
        subst hb
        unfold addDuplicateTitle at hdup
        rw [List.any_eq_false] at hdup
        intro hteq
        exact hdup a ha (decide_eq_true hteq)
    | editStep db' form c hr ih =>
      rcases edit_post_state db' form c with h' | ⟨n, r, _, _, h'⟩
      · rw [h']; exact ih
      · rw [h']
        refine List.pairwise_map.mpr (ih.imp ?_)
        intro a b hab
        by_cases ha : a.id = n <;> by_cases hb : b.id = n <;> simpa [ha, hb] using hab
    | delStep db' form c hr ih =>
      rcases delete_post_state db' form c with h' | ⟨n, h'⟩
      · rw [h']; exact ih
      · rw [h']
        exact List.Pairwise.sublist (List.filter_sublist _) ih
  refine ⟨hmain db h, ?_⟩
  intro form c hdup
  rcases add_post_state db form c with h' | ⟨hdup2, _, _, _, _⟩
  · exact h'
  · rw [hdup] at hdup2
    exact absurd hdup2 (by decide)

theorem title_uniqueness_invariant_witness :
    ((add_post initialDB ⟨some "Dune", some "Frank Herbert", some "9.5"⟩ true).2).books.Pairwise
      (fun a b => a.title ≠ b.title) :=
  (title_uniqueness_invariant
    ((add_post initialDB ⟨some "Dune", some "Frank Herbert", some "9.5"⟩ true).2)
    (Reachable.addStep initialDB ⟨some "Dune", some "Frank Herbert", some "9.5"⟩ true
      Reachable.init)).1
